import Mathlib

/-!
Verification development for the indy-mqtt command-line client
(`cmd/indy-mqtt.go`, `internal/util/util.go`, `internal/message`,
`internal/command`, `internal/config`).

The program publishes one MQTT command per invocation and, for commands
that expect a device acknowledgment, correlates the asynchronous ack back
to the published message by message id.  The Go sources are shallowly
embedded here: pure helpers become Lean functions; the asynchronous races
in `main` and `connect` (publish confirmation vs. interrupt, ack vs.
timeout vs. interrupt, subscribe confirmation vs. timeout) become explicit
environment records whose fields say which racing event fired first, and
`main`'s observable behaviour becomes an ordered trace of steps plus an
outcome and a process exit code.
-/

namespace IndyMqtt

/-! ## Identifier generator (`internal/util/util.go`, `GenerateHexSuffix`) -/

/-- Go's `fmt.Sprintf("%X", b)` for a single byte value `b < 16`: one
uppercase hexadecimal digit (`util.go` line 101-104 formats each of the
eight bounded random bytes this way). -/
def hexUpperChar (v : Fin 16) : Char :=
  if v.val < 10 then Char.ofNat (48 + v.val) else Char.ofNat (55 + v.val)

/-- `util.GenerateHexSuffix` (util.go lines 91-105): draws eight values
uniformly from `[0, 16)` via `rand.Intn` and formats them as
`"ABCD-EF01"`.  The eight random draws are the explicit argument
`hexDigits`; the function itself is total (no failure modes). -/
def GenerateHexSuffix (hexDigits : Fin 8 → Fin 16) : String :=
  String.mk
    [hexUpperChar (hexDigits 0), hexUpperChar (hexDigits 1),
     hexUpperChar (hexDigits 2), hexUpperChar (hexDigits 3),
     '-',
     hexUpperChar (hexDigits 4), hexUpperChar (hexDigits 5),
     hexUpperChar (hexDigits 6), hexUpperChar (hexDigits 7)]

/-- A character is an uppercase hexadecimal digit. -/
def isUpperHexDigit (c : Char) : Bool :=
  ('0' ≤ c && c ≤ '9') || ('A' ≤ c && c ≤ 'F')

/-! ## Messages (`internal/message`) -/

/-- `message.Header` (util.go embedded message package): `message_id` and
`timestamp` fields of the JSON header object. -/
structure Header where
  messageID : String
  timestamp : String
  deriving DecidableEq

/-- Closed set of message content variants: `ControlContent`,
`ConfigContent`, `RestartContent`, `EmptyContent`. -/
inductive SettingValue
  | str (value : String)
  | int (value : Int)
  | suntimes (value : List (Int × (String × String)))
  deriving DecidableEq

inductive CmdContent
  | control (switchOn : Bool)
  | config (settings : List (String × SettingValue))
  | restart (reset : Bool)
  | empty
  deriving DecidableEq

/-- `message.Message`: header plus content. -/
structure Message where
  header : Header
  content : CmdContent
  deriving DecidableEq

/-- `message.NewMessage` (util.go lines 154-167): the message id is
`fmt.Sprintf("%s-%s", clientID, util.GenerateHexSuffix())`; the timestamp
is `time.Now()` in RFC3339, passed here as an explicit argument since the
embedding is pure. -/
def NewMessage (clientID : String) (content : CmdContent)
    (hexDigits : Fin 8 → Fin 16) (timestamp : String) : Message :=
  { header := { messageID := clientID ++ "-" ++ GenerateHexSuffix hexDigits,
                timestamp := timestamp },
    content := content }

/-- `message.AckMessage` (util.go lines 170-175): JSON fields `id`,
`status_code`, `message`, `content` (raw bytes, kept as a string). -/
structure AckMessage where
  ID : String
  StatusCode : Int
  Message : String
  Content : String
  deriving DecidableEq

/-! ## Commands (`internal/command`, embedded in src/Makefile) -/

/-- `command.Command`: the ack handler interface is an excluded
collaborator, modelled as an optional function from ack content bytes to
an optional error string. -/
structure Command where
  Host : String
  Topic : String
  QOS : Nat
  Message : Message
  IsAckExpected : Bool
  AckHandler : Option (String → Option String)

/-- `Command.HandleAck` (command package lines 78-83): calls the handler
when present, otherwise returns nil (no error). -/
def Command.HandleAck (command : Command) (content : String) : Option String :=
  match command.AckHandler with
  | some handler => handler content
  | none => none

/-- `command.NewControlCommand`: parses on/off, rejects extra arguments,
publishes to `indy-switch/{host}/control` with QoS 2, ack expected. -/
def NewControlCommand (clientID host : String) (args : List String)
    (hexDigits : Fin 8 → Fin 16) (timestamp : String) : Except String Command :=
  match args with
  | [] => .error "switch command is missing the on/off parameter"
  | switchOnStr :: rest =>
    if switchOnStr ≠ "on" ∧ switchOnStr ≠ "off" then
      .error ("switch command is expecting on or off instead of " ++ switchOnStr)
    else if rest ≠ [] then
      .error "unexpected arguments for switch command"
    else
      let switchOn := switchOnStr = "on"
      .ok { Host := host,
            Topic := "indy-switch/" ++ host ++ "/control",
            QOS := 2,
            Message := NewMessage clientID (.control switchOn) hexDigits timestamp,
            IsAckExpected := true,
            AckHandler := none }

/-- `command.NewRestartCommand` (command package lines 345-357): no
arguments allowed; topic `indy-switch/{host}/restart`, content
`RestartContent{Reset: false}`, QoS 2, no ack expected. -/
def NewRestartCommand (clientID host : String) (args : List String)
    (hexDigits : Fin 8 → Fin 16) (timestamp : String) : Except String Command :=
  if args ≠ [] then
    .error "unexpected arguments for restart command"
  else
    .ok { Host := host,
          Topic := "indy-switch/" ++ host ++ "/restart",
          QOS := 2,
          Message := NewMessage clientID (.restart false) hexDigits timestamp,
          IsAckExpected := false,
          AckHandler := none }

/-- `command.NewResetCommand` (command package lines 360-372): no
arguments allowed; topic `indy-switch/{host}/restart` (same topic as
restart), content `RestartContent{Reset: true}`, QoS 2, no ack
expected. -/
def NewResetCommand (clientID host : String) (args : List String)
    (hexDigits : Fin 8 → Fin 16) (timestamp : String) : Except String Command :=
  if args ≠ [] then
    .error "unexpected arguments for reset command"
  else
    .ok { Host := host,
          Topic := "indy-switch/" ++ host ++ "/restart",
          QOS := 2,
          Message := NewMessage clientID (.restart true) hexDigits timestamp,
          IsAckExpected := false,
          AckHandler := none }

/-! ## Timing and exit-code constants -/

/-- `TIMEOUT = 30 * time.Second` (indy-mqtt.go line 29), in seconds.  Used
both for the subscribe wait in `connect` and for the ack wait in `main`
(the `time.After(TIMEOUT)` is created when the ack-watching `select`
begins, i.e. the budget is measured from the start of ack waiting). -/
def TIMEOUT_SECONDS : Nat := 30

/-- `DISCONNECT_WAIT = 250` milliseconds (indy-mqtt.go line 138): the
grace period passed to `client.Disconnect`. -/
def DISCONNECT_WAIT_MS : Nat := 250

/-- Go's `log.Logger.Fatalf` prints and then calls `os.Exit(1)`.
`util.ERROR` is such a logger (util.go line 55), so every
`util.ERROR.Fatalf` path exits with status 1. -/
def fatalfExitCode : Nat := 1

/-- `util.PrintFatalUsage` (util.go lines 84-88) prints the error and the
usage text and then calls `os.Exit(0)`: usage errors exit with status 0. -/
def printFatalUsageExitCode : Nat := 0

/-! ## The ack-watching goroutine (indy-mqtt.go lines 99-123)

The goroutine drains the ack channel; for each ack whose `ID` equals the
outstanding message id it either reports success (status 200), prints the
ack's text, and invokes the command's ack handler, or reports the error
code, and in both cases closes the `acked` channel and returns.
Non-matching acks are skipped silently.  We model its observable behaviour
as an ordered list of events produced from the list of acks delivered on
the channel. -/

inductive AckEvent
  | reportSuccess
  | printAckMessage (msg : String)
  | callHandler (content : String)
  | reportHandlerError (err : String)
  | reportAckError (code : Int) (msg : String)
  | signalAcked
  deriving DecidableEq

/-- What the goroutine does for the first ack whose `ID` matches
(indy-mqtt.go lines 102-121): with `STATUS_CODE_OK = 200` it reports
success, prints the ack's text when non-empty and invokes the command's
ack handler, reporting a handler error as a secondary diagnostic;
otherwise it reports the error code; in both cases it then closes the
`acked` channel and returns. -/
def matchEvents (cmd : Command) (ack : AckMessage) : List AckEvent :=
  (if ack.StatusCode = 200 then
    [.reportSuccess]
      ++ (if ack.Message.length > 0 then [.printAckMessage ack.Message] else [])
      ++ [.callHandler ack.Content]
      ++ (match cmd.HandleAck ack.Content with
          | some err => [.reportHandlerError err]
          | none => [])
  else
    [.reportAckError ack.StatusCode ack.Message])
  ++ [.signalAcked]

/-- The event trace of the ack-watching goroutine on the list of acks
delivered to `ackCh`, transcribing indy-mqtt.go lines 100-122: acks whose
`ID` differs from the outstanding message id are skipped silently; the
first matching ack is processed and the goroutine returns. -/
def ackLoop (cmd : Command) : List AckMessage → List AckEvent
  | [] => []
  | ack :: rest =>
    if ack.ID = cmd.Message.header.messageID then matchEvents cmd ack
    else ackLoop cmd rest

/-- Whether an event is an invocation of the command-specific ack
handler. -/
def isHandlerCall : AckEvent → Bool
  | .callHandler _ => true
  | _ => false

/-- Number of ack-handler invocations in an event trace. -/
def countHandlerCalls (events : List AckEvent) : Nat :=
  events.countP isHandlerCall

/-- The first ack in the delivered stream whose `ID` matches the
outstanding message id (the ack the goroutine acts on), if any. -/
def findMatch (messageID : String) : List AckMessage → Option AckMessage
  | [] => none
  | ack :: rest => if ack.ID = messageID then some ack else findMatch messageID rest

/-! ## Outcomes (spec §3)

`main` has no explicit outcome value; the Outcome of the spec is the
terminal result it reports.  We compute it from the branch `main` takes. -/

inductive Outcome
  | publishFailed
  | publishedNoAckRequired
  | ackSuccess (msg : String) (content : String)
  | ackFailure (code : Int) (msg : String)
  | ackTimeout
  | interrupted
  deriving DecidableEq

/-- Classification of a matching ack (indy-mqtt.go lines 103-118): the
success test is `ack.StatusCode == STATUS_CODE_OK` with
`STATUS_CODE_OK = 200`, exact equality. -/
def classifyMatch (ack : AckMessage) : Outcome :=
  if ack.StatusCode = 200 then .ackSuccess ack.Message ack.Content
  else .ackFailure ack.StatusCode ack.Message

/-! ## Session setup (`connect`, indy-mqtt.go lines 165-252) -/

/-- Environment for one run of `connect`: whether the broker connect
handshake fails (`client.Connect` token error, line 237), and — when an
ack is expected — whether the subscription completes and its confirmation
arrives before the 30-second `time.After(TIMEOUT)` in the wait at lines
242-248 (a subscribe token error, which never closes `subscribed`, also
lands in the timeout branch). -/
structure ConnectEnv where
  connectErr : Option String
  subscribeConfirmsInTime : Bool
  deriving DecidableEq

/-- Observable result of `connect`: `result = none` means it returned a
usable `(client, nil)`; `subscribeAttempted` records whether `Subscribe`
was called (line 196, only when `isAckExpected`); `subscribeConfirmed`
whether the wait at lines 242-248 saw the confirmation;
`loggedSubscribeTimeout` whether the timeout branch at line 247 logged its
error; `connectionClosedBeforeReturn` whether `connect` closed the broker
connection before returning (no path in the source does). -/
structure ConnectOutcome where
  result : Option String
  subscribeAttempted : Bool
  subscribeConfirmed : Bool
  loggedSubscribeTimeout : Bool
  connectionClosedBeforeReturn : Bool
  deriving DecidableEq

/-- `connect` (indy-mqtt.go lines 165-252).  On connect-token error it
returns the error (line 238).  Otherwise, when `isAckExpected`, the
`OnConnect` callback subscribes to the ack topic and `connect` waits for
confirmation or the 30-second timeout; in the timeout branch it logs
"Timed out while waiting to subscribe" (line 247) and then still falls
through to `return client, nil` (line 251) without closing the
connection. -/
def connectModel (isAckExpected : Bool) (env : ConnectEnv) : ConnectOutcome :=
  match env.connectErr with
  | some e =>
    { result := some e, subscribeAttempted := false, subscribeConfirmed := false,
      loggedSubscribeTimeout := false, connectionClosedBeforeReturn := false }
  | none =>
    if isAckExpected then
      if env.subscribeConfirmsInTime then
        { result := none, subscribeAttempted := true, subscribeConfirmed := true,
          loggedSubscribeTimeout := false, connectionClosedBeforeReturn := false }
      else
        { result := none, subscribeAttempted := true, subscribeConfirmed := false,
          loggedSubscribeTimeout := true, connectionClosedBeforeReturn := false }
    else
      { result := none, subscribeAttempted := false, subscribeConfirmed := false,
        loggedSubscribeTimeout := false, connectionClosedBeforeReturn := false }

/-! ## `main` after command construction (indy-mqtt.go lines 57-141) -/

/-- Which branch of the publish-wait `select` (lines 84-94) fires first:
the publish token completes without error, completes with an error, or the
interrupt signal arrives first. -/
inductive PublishWait
  | ok
  | err
  | interrupt
  deriving DecidableEq

/-- Environment for one run of `main` past command construction: the
connect environment, whether `json.Marshal(cmd.Message)` succeeds (lines
66-69; the verbose pretty-print at line 72 uses the same marshalling and
its failure is folded into the same flag), which publish-wait branch
fires, the acks delivered on `ackCh` during the ack wait and within its
30-second budget, and whether the interrupt signal wins the ack-wait
`select` (lines 127-134) before a matching ack arrives. -/
structure MainEnv where
  cenv : ConnectEnv
  marshalOk : Bool
  publishWait : PublishWait
  acks : List AckMessage
  interruptBeforeAck : Bool

/-- Observable steps of `main`, in program order. -/
inductive Step
  | fatalExit (msg : String)
  | publishAttempt (topic : String) (qos : Nat)
  | logPublishError
  | logPublished
  | printInterrupt
  | watchAck
  | ackEvent (e : AckEvent)
  | logAckTimeout
  | disconnect (graceMs : Nat)
  deriving DecidableEq

structure MainResult where
  steps : List Step
  outcome : Option Outcome
  exit : Nat
  deriving DecidableEq

/-- `main` from the `connect` call to process exit (indy-mqtt.go lines
57-141), as a function of the command and the asynchronous environment.
Branches:
* connect error → `util.ERROR.Fatalf("Unable to connect: ...")`, exit 1
  (line 61), no disconnect;
* marshal error → `util.ERROR.Fatalf("Error marshaling message: ...")`,
  exit 1 (line 68), no disconnect;
* publish-wait error/interrupt → log, skip the ack block (publishSuccess
  is false), `client.Disconnect(250)`, exit 0;
* ack expected and publish confirmed → watch for ack: interrupt, matching
  ack (with the goroutine's event trace), or the 30-second timeout; then
  `client.Disconnect(250)`, exit 0;
* no ack expected → straight to `client.Disconnect(250)`, exit 0. -/
def runMain (cmd : Command) (env : MainEnv) : MainResult :=
  let conn := connectModel cmd.IsAckExpected env.cenv
  match conn.result with
  | some e =>
    { steps := [.fatalExit ("Unable to connect: " ++ e)], outcome := none,
      exit := fatalfExitCode }
  | none =>
    if env.marshalOk = false then
      { steps := [.fatalExit "Error marshaling message"], outcome := none,
        exit := fatalfExitCode }
    else
      let pub := Step.publishAttempt cmd.Topic cmd.QOS
      match env.publishWait with
      | .err =>
        { steps := [pub, .logPublishError, .disconnect DISCONNECT_WAIT_MS],
          outcome := some .publishFailed, exit := 0 }
      | .interrupt =>
        { steps := [pub, .printInterrupt, .disconnect DISCONNECT_WAIT_MS],
          outcome := some .interrupted, exit := 0 }
      | .ok =>
        if cmd.IsAckExpected then
          if env.interruptBeforeAck then
            { steps := [pub, .logPublished, .watchAck, .printInterrupt,
                        .disconnect DISCONNECT_WAIT_MS],
              outcome := some .interrupted, exit := 0 }
          else
            match findMatch cmd.Message.header.messageID env.acks with
            | some ack =>
              { steps := [pub, .logPublished, .watchAck]
                  ++ (ackLoop cmd env.acks).map .ackEvent
                  ++ [.disconnect DISCONNECT_WAIT_MS],
                outcome := some (classifyMatch ack), exit := 0 }
            | none =>
              { steps := [pub, .logPublished, .watchAck, .logAckTimeout,
                          .disconnect DISCONNECT_WAIT_MS],
                outcome := some .ackTimeout, exit := 0 }
        else
          { steps := [pub, .logPublished, .disconnect DISCONNECT_WAIT_MS],
            outcome := some .publishedNoAckRequired, exit := 0 }

/-! ## Concrete fixtures used by witness theorems -/

/-- A fixed random-draw function (all zeroes), standing in for one
concrete run of `rand.Intn(16)` eight times. -/
def wDraws : Fin 8 → Fin 16 := fun _ => 0

/-- A concrete `switch on` command (ack expected), as built by
`NewControlCommand` for host `esp-vorona` with client id `cid`. -/
def wControl : Command :=
  { Host := "esp-vorona",
    Topic := "indy-switch/esp-vorona/control",
    QOS := 2,
    Message := NewMessage "cid" (.control true) wDraws "2024-01-01T00:00:00Z",
    IsAckExpected := true,
    AckHandler := none }

/-- A concrete `status` command whose ack handler always fails, to
exercise the secondary-error path. -/
def wStatus : Command :=
  { Host := "esp-vorona",
    Topic := "indy-switch/esp-vorona/status/get",
    QOS := 2,
    Message := NewMessage "cid" .empty wDraws "2024-01-01T00:00:00Z",
    IsAckExpected := true,
    AckHandler := some fun _ => some "unable to parse ACK JSON content" }

/-- A concrete `restart` command (no ack expected). -/
def wRestart : Command :=
  { Host := "esp-vorona",
    Topic := "indy-switch/esp-vorona/restart",
    QOS := 2,
    Message := NewMessage "cid" (.restart false) wDraws "2024-01-01T00:00:00Z",
    IsAckExpected := false,
    AckHandler := none }

/-- An ack whose id does not match any fixture command's message id. -/
def wAckOther : AckMessage :=
  { ID := "other-client-0000-0000", StatusCode := 200, Message := "", Content := "" }

/-- A matching ack with status 200. -/
def wAckOk : AckMessage :=
  { ID := "cid-0000-0000", StatusCode := 200, Message := "done", Content := "{}" }

/-- A matching ack with status 201 (success under a range check, failure
under the exact check the code uses). -/
def wAck201 : AckMessage :=
  { ID := "cid-0000-0000", StatusCode := 201, Message := "created", Content := "" }

/-- A main environment with a clean connect/marshal/publish and the given
delivered acks. -/
def wEnv (acks : List AckMessage) : MainEnv :=
  { cenv := { connectErr := none, subscribeConfirmsInTime := true },
    marshalOk := true, publishWait := .ok, acks := acks,
    interruptBeforeAck := false }

/-! ## Helper lemmas -/

theorem connectModel_result_none (isAckExpected : Bool) (env : ConnectEnv)
    (h : env.connectErr = none) :
    (connectModel isAckExpected env).result = none := by
  cases isAckExpected <;> cases hc : env.subscribeConfirmsInTime <;>
    simp [connectModel, h, hc]

theorem ackLoop_cons_of_ne (cmd : Command) (ack : AckMessage)
    (rest : List AckMessage) (h : ack.ID ≠ cmd.Message.header.messageID) :
    ackLoop cmd (ack :: rest) = ackLoop cmd rest := by
  simp [ackLoop, h]

theorem findMatch_cons_of_ne (messageID : String) (ack : AckMessage)
    (rest : List AckMessage) (h : ack.ID ≠ messageID) :
    findMatch messageID (ack :: rest) = findMatch messageID rest := by
  simp [findMatch, h]

theorem hexUpperChar_injective :
    ∀ a b : Fin 16, hexUpperChar a = hexUpperChar b → a = b := by decide

theorem hexUpperChar_isHex : ∀ v : Fin 16, isUpperHexDigit (hexUpperChar v) = true := by
  decide

theorem runMain_outcome_of_match (cmd : Command) (env : MainEnv) (ack : AckMessage)
    (hAck : cmd.IsAckExpected = true)
    (hConn : env.cenv.connectErr = none)
    (hM : env.marshalOk = true)
    (hP : env.publishWait = PublishWait.ok)
    (hI : env.interruptBeforeAck = false)
    (hF : findMatch cmd.Message.header.messageID env.acks = some ack) :
    (runMain cmd env).outcome = some (classifyMatch ack) := by
  have hres := connectModel_result_none true env.cenv hConn
  simp [runMain, hAck, hres, hM, hP, hI, hF]

theorem callHandler_mem_matchEvents (cmd : Command) (ack : AckMessage) (c : String)
    (h : AckEvent.callHandler c ∈ matchEvents cmd ack) :
    ack.StatusCode = 200 ∧ ack.Content = c := by
  by_cases h200 : ack.StatusCode = 200
  · refine ⟨h200, ?_⟩
    by_cases hmsg : ack.Message.length > 0 <;>
      cases hh : cmd.HandleAck ack.Content <;>
        · simp [matchEvents, h200, hmsg, hh] at h
          first
          | exact h
          | exact h.symm
  · exfalso
    by_cases hmsg : ack.Message.length > 0 <;>
      cases hh : cmd.HandleAck ack.Content <;>
        simp [matchEvents, h200, hmsg, hh] at h

theorem countHandlerCalls_matchEvents (cmd : Command) (ack : AckMessage) :
    countHandlerCalls (matchEvents cmd ack) ≤ 1 := by
  by_cases h200 : ack.StatusCode = 200 <;>
    by_cases hmsg : ack.Message.length > 0 <;>
      cases hh : cmd.HandleAck ack.Content <;>
        simp [matchEvents, countHandlerCalls, isHandlerCall, h200, hmsg, hh,
          List.countP_append, List.countP_cons]

theorem countHandlerCalls_ackLoop (cmd : Command) (acks : List AckMessage) :
    countHandlerCalls (ackLoop cmd acks) ≤ 1 := by
  induction acks with
  | nil => simp [ackLoop, countHandlerCalls]
  | cons a rest ih =>
    by_cases hid : a.ID = cmd.Message.header.messageID
    · simpa [ackLoop, hid] using countHandlerCalls_matchEvents cmd a
    · simpa [ackLoop, hid] using ih

theorem callHandler_only_on_match (cmd : Command) (acks : List AckMessage) (c : String)
    (h : AckEvent.callHandler c ∈ ackLoop cmd acks) :
    ∃ ack, findMatch cmd.Message.header.messageID acks = some ack
      ∧ ack.StatusCode = 200 ∧ ack.Content = c := by
  induction acks with
  | nil => simp [ackLoop] at h
  | cons a rest ih =>
    by_cases hid : a.ID = cmd.Message.header.messageID
    · simp only [ackLoop, hid, if_true] at h
      obtain ⟨h200, hc⟩ := callHandler_mem_matchEvents cmd a c h
      exact ⟨a, by simp [findMatch, hid], h200, hc⟩
    · simp only [ackLoop, hid, if_false] at h
      obtain ⟨ack, hf, h200, hc⟩ := ih h
      exact ⟨ack, by simp [findMatch, hid, hf], h200, hc⟩

theorem reportSuccess_before_callHandler (cmd : Command) (acks : List AckMessage)
    (l1 l2 : List AckEvent) (c : String)
    (h : ackLoop cmd acks = l1 ++ AckEvent.callHandler c :: l2) :
    AckEvent.reportSuccess ∈ l1 := by
  induction acks with
  | nil => simp [ackLoop] at h
  | cons a rest ih =>
    by_cases hid : a.ID = cmd.Message.header.messageID
    · simp only [ackLoop, hid, if_true] at h
      have hch : AckEvent.callHandler c ∈ matchEvents cmd a := by
        rw [h]
        exact List.mem_append_right _ (List.mem_cons_self _ _)
      have h200 := (callHandler_mem_matchEvents cmd a c hch).1
      simp only [matchEvents, h200, if_true, List.cons_append, List.singleton_append,
        List.append_assoc] at h
      cases l1 with
      | nil => simp at h
      | cons x xs =>
        rw [List.cons_append] at h
        injection h with h1 _
        rw [← h1]
        exact List.mem_cons_self _ _
    · simp only [ackLoop, hid, if_false] at h
      exact ih h

theorem handlerError_in_trace (cmd : Command) (acks : List AckMessage)
    (ack : AckMessage) (err : String)
    (hF : findMatch cmd.Message.header.messageID acks = some ack)
    (h200 : ack.StatusCode = 200)
    (hErr : cmd.HandleAck ack.Content = some err) :
    AckEvent.reportHandlerError err ∈ ackLoop cmd acks := by
  induction acks with
  | nil => simp [findMatch] at hF
  | cons a rest ih =>
    by_cases hid : a.ID = cmd.Message.header.messageID
    · simp only [findMatch, hid, if_true, Option.some.injEq] at hF
      subst hF
      by_cases hmsg : a.Message.length > 0 <;>
        simp [ackLoop, hid, matchEvents, h200, hmsg, hErr]
    · simp only [findMatch, hid, if_false] at hF
      simp only [ackLoop, hid, if_false]
      exact ih hF

/-! ## Claim theorems -/

/-- C2: every acknowledgment event whose `id` differs from the outstanding
message id is discarded by the ack-watching loop: the loop's trace is
unchanged by such an event, the first-match search skips it, a stream of
only mismatching events produces no events at all (hence no Outcome and no
error report — the goroutine keeps draining the channel, i.e. remains in
`AwaitingAck`), and prepending a mismatching event to the delivered stream
leaves the whole invocation's observable behaviour unchanged. -/
theorem ackMismatch_ignored (cmd : Command) (ack : AckMessage)
    (rest : List AckMessage)
    (h : ack.ID ≠ cmd.Message.header.messageID) :
    ackLoop cmd (ack :: rest) = ackLoop cmd rest
    ∧ findMatch cmd.Message.header.messageID (ack :: rest)
        = findMatch cmd.Message.header.messageID rest
    ∧ (∀ acks : List AckMessage,
        (∀ b ∈ acks, b.ID ≠ cmd.Message.header.messageID) →
          ackLoop cmd acks = []
            ∧ findMatch cmd.Message.header.messageID acks = none)
    ∧ (∀ env : MainEnv,
        runMain cmd { env with acks := ack :: env.acks } = runMain cmd env) := by
  refine ⟨ackLoop_cons_of_ne cmd ack rest h,
    findMatch_cons_of_ne cmd.Message.header.messageID ack rest h, ?_, ?_⟩
  · intro acks hall
    induction acks with
    | nil => exact ⟨rfl, rfl⟩
    | cons a as ih =>
      have ha := hall a (List.mem_cons_self a as)
      have hrest := ih fun b hb => hall b (List.mem_cons_of_mem a hb)
      exact ⟨by simp [ackLoop, ha, hrest.1], by simp [findMatch, ha, hrest.2]⟩
  · intro env
    have h1 := ackLoop_cons_of_ne cmd ack env.acks h
    have h2 := findMatch_cons_of_ne cmd.Message.header.messageID ack env.acks h
    simp [runMain, h1, h2]

/-- Witness for C2 at a concrete command and a concrete non-matching
acknowledgment event. -/
theorem ackMismatch_ignored_witness :
    wAckOther.ID ≠ wControl.Message.header.messageID
    ∧ ackLoop wControl [wAckOther] = ackLoop wControl []
    ∧ findMatch wControl.Message.header.messageID [wAckOther] = none :=
  ⟨by decide, (ackMismatch_ignored wControl wAckOther [] (by decide)).1,
    ((ackMismatch_ignored wControl wAckOther [] (by decide)).2.2.1 [wAckOther]
      (by decide)).2⟩

/-- C3: for the matching acknowledgment event the invocation's outcome is
`Acknowledged(success)` exactly when `status_code = 200`, and
`Acknowledged(failure, status_code, message)` for every other integer
status code — the success test is exact equality with 200. -/
theorem ackStatus_exact (cmd : Command) (env : MainEnv) (ack : AckMessage)
    (hAck : cmd.IsAckExpected = true)
    (hConn : env.cenv.connectErr = none)
    (hM : env.marshalOk = true)
    (hP : env.publishWait = PublishWait.ok)
    (hI : env.interruptBeforeAck = false)
    (hF : findMatch cmd.Message.header.messageID env.acks = some ack) :
    (runMain cmd env).outcome = some (classifyMatch ack)
    ∧ (ack.StatusCode = 200 →
        classifyMatch ack = Outcome.ackSuccess ack.Message ack.Content)
    ∧ (ack.StatusCode ≠ 200 →
        classifyMatch ack = Outcome.ackFailure ack.StatusCode ack.Message)
    ∧ (classifyMatch ack = Outcome.ackSuccess ack.Message ack.Content
        ↔ ack.StatusCode = 200) := by
  refine ⟨runMain_outcome_of_match cmd env ack hAck hConn hM hP hI hF, ?_, ?_, ?_⟩
  · intro h200; simp [classifyMatch, h200]
  · intro hne; simp [classifyMatch, hne]
  · constructor
    · intro hcl
      by_contra hne
      simp [classifyMatch, hne] at hcl
    · intro h200; simp [classifyMatch, h200]

/-- Witness for C3: a matching ack with status code 201 is classified as a
failure (exact-equality boundary), and the run's outcome records it. -/
theorem ackStatus_exact_witness :
    findMatch wControl.Message.header.messageID [wAck201] = some wAck201
    ∧ (runMain wControl (wEnv [wAck201])).outcome = some (classifyMatch wAck201)
    ∧ classifyMatch wAck201 = Outcome.ackFailure 201 "created" :=
  ⟨by decide,
    (ackStatus_exact wControl (wEnv [wAck201]) wAck201 rfl rfl rfl rfl rfl
      (by decide)).1,
    by decide⟩

/-- C4: when `ack_expected = false` (e.g. the restart command) no
subscription to the ack topic is ever attempted, the outcome is
`PublishedNoAckRequired` immediately after the broker confirms the publish
(the trace goes straight from the publish confirmation to the disconnect,
with no ack wait), and the delivered acknowledgment traffic and the
ack-wait interrupt flag have no effect on the run at all. -/
theorem noAckRequired_outcome (cmd : Command) (env : MainEnv)
    (hAck : cmd.IsAckExpected = false) :
    (connectModel cmd.IsAckExpected env.cenv).subscribeAttempted = false
    ∧ (env.cenv.connectErr = none → env.marshalOk = true →
        env.publishWait = PublishWait.ok →
        (runMain cmd env).outcome = some Outcome.publishedNoAckRequired
        ∧ (runMain cmd env).steps
            = [Step.publishAttempt cmd.Topic cmd.QOS, Step.logPublished,
               Step.disconnect DISCONNECT_WAIT_MS])
    ∧ (∀ acks ib,
        runMain cmd { env with acks := acks, interruptBeforeAck := ib }
          = runMain cmd env) := by
  refine ⟨?_, ?_, ?_⟩
  · rw [hAck]
    cases hce : env.cenv.connectErr <;> simp [connectModel, hce]
  · intro hConn hM hP
    have hres := connectModel_result_none false env.cenv hConn
    constructor <;> simp [runMain, hAck, hres, hM, hP]
  · intro acks ib
    simp [runMain, hAck]

/-- Witness for C4 at the concrete restart command: matching ack traffic
is present but the outcome is still `PublishedNoAckRequired`, and no
subscription is attempted. -/
theorem noAckRequired_outcome_witness :
    wRestart.IsAckExpected = false
    ∧ (runMain wRestart (wEnv [wAckOk])).outcome
        = some Outcome.publishedNoAckRequired
    ∧ (connectModel wRestart.IsAckExpected (wEnv []).cenv).subscribeAttempted
        = false :=
  ⟨rfl,
    ((noAckRequired_outcome wRestart (wEnv [wAckOk]) rfl).2.1 rfl rfl rfl).1,
    (noAckRequired_outcome wRestart (wEnv []) rfl).1⟩

/-- C5: when an ack is expected, the publish was confirmed, no interrupt
arrives, and no delivered acknowledgment matches the outstanding message
id within the wait budget, the outcome is `AckTimeout` and the trace
proceeds to the bounded graceful disconnect (250 ms grace); the wait
budget constant is 30 seconds (`TIMEOUT = 30 * time.Second`), and the
`time.After(TIMEOUT)` timer is created when the ack-watching `select`
begins, i.e. the budget runs from the start of ack waiting, not from
publish time (the `acks` field of the environment is exactly the traffic
delivered inside that window). -/
theorem ackTimeout_outcome (cmd : Command) (env : MainEnv)
    (hAck : cmd.IsAckExpected = true)
    (hConn : env.cenv.connectErr = none)
    (hM : env.marshalOk = true)
    (hP : env.publishWait = PublishWait.ok)
    (hI : env.interruptBeforeAck = false)
    (hF : findMatch cmd.Message.header.messageID env.acks = none) :
    (runMain cmd env).outcome = some Outcome.ackTimeout
    ∧ (runMain cmd env).steps
        = [Step.publishAttempt cmd.Topic cmd.QOS, Step.logPublished,
           Step.watchAck, Step.logAckTimeout, Step.disconnect DISCONNECT_WAIT_MS]
    ∧ TIMEOUT_SECONDS = 30
    ∧ DISCONNECT_WAIT_MS = 250 := by
  have hres := connectModel_result_none true env.cenv hConn
  refine ⟨?_, ?_, rfl, rfl⟩ <;> simp [runMain, hAck, hres, hM, hP, hI, hF]

/-- Witness for C5: only a non-matching ack is delivered within the
budget, so the concrete run times out and disconnects. -/
theorem ackTimeout_outcome_witness :
    findMatch wControl.Message.header.messageID [wAckOther] = none
    ∧ (runMain wControl (wEnv [wAckOther])).outcome = some Outcome.ackTimeout
    ∧ (runMain wControl (wEnv [wAckOther])).steps
        = [Step.publishAttempt wControl.Topic wControl.QOS, Step.logPublished,
           Step.watchAck, Step.logAckTimeout, Step.disconnect DISCONNECT_WAIT_MS] :=
  ⟨by decide,
    (ackTimeout_outcome wControl (wEnv [wAckOther]) rfl rfl rfl rfl rfl
      (by decide)).1,
    (ackTimeout_outcome wControl (wEnv [wAckOther]) rfl rfl rfl rfl rfl
      (by decide)).2.1⟩

/-- C1 counterexample: with the connect handshake succeeding but the
subscription confirmation not arriving before the deadline, `connect`
still returns a usable session (`result = none`, line 251 of
indy-mqtt.go), does not close the connection, merely logs the subscribe
timeout (line 247) — and `main` then goes on to issue the publish without
subscription confirmation.  This refutes the claim that setup fails with
`SubscribeTimeout` and closes the connection. -/
theorem connect_subscribeTimeout_usable :
    (connectModel true { connectErr := none, subscribeConfirmsInTime := false }).result
        = none
    ∧ (connectModel true
        { connectErr := none, subscribeConfirmsInTime := false }).subscribeConfirmed
        = false
    ∧ (connectModel true
        { connectErr := none,
          subscribeConfirmsInTime := false }).connectionClosedBeforeReturn = false
    ∧ (connectModel true
        { connectErr := none,
          subscribeConfirmsInTime := false }).loggedSubscribeTimeout = true
    ∧ Step.publishAttempt wControl.Topic wControl.QOS ∈
        (runMain wControl
          { cenv := { connectErr := none, subscribeConfirmsInTime := false },
            marshalOk := true, publishWait := PublishWait.ok,
            acks := [], interruptBeforeAck := false }).steps := by
  decide

/-- C1 (amended): when an acknowledgment is expected and the connect
handshake succeeds, `connect` subscribes to the ack topic and waits until
the subscription is confirmed or the 30-second deadline elapses, and only
then returns, so the publish is issued only after that wait; when the
confirmation arrives in time the returned session has the subscription
confirmed and no timeout is logged.  However, on subscribe timeout
`connect` merely logs an error and still returns the session usable and
unclosed (no `SubscribeTimeout` failure, no teardown), and the publish
proceeds without subscription confirmation. -/
theorem connect_subscribe_behavior (env : ConnectEnv)
    (hc : env.connectErr = none) :
    (connectModel true env).subscribeAttempted = true
    ∧ (connectModel true env).result = none
    ∧ (connectModel true env).connectionClosedBeforeReturn = false
    ∧ (connectModel true env).subscribeConfirmed = env.subscribeConfirmsInTime
    ∧ (connectModel true env).loggedSubscribeTimeout = !env.subscribeConfirmsInTime
    ∧ TIMEOUT_SECONDS = 30 := by
  cases hsc : env.subscribeConfirmsInTime <;>
    simp [connectModel, hc, hsc, TIMEOUT_SECONDS]

/-- Witness for the amended C1: a connect environment whose subscription
confirmation arrives in time yields a confirmed subscription. -/
theorem connect_subscribe_behavior_witness :
    ({ connectErr := none, subscribeConfirmsInTime := true } : ConnectEnv).connectErr
        = none
    ∧ (connectModel true
        { connectErr := none, subscribeConfirmsInTime := true }).subscribeConfirmed
        = true :=
  ⟨rfl,
    (connect_subscribe_behavior
      { connectErr := none, subscribeConfirmsInTime := true } rfl).2.2.2.1⟩

/-- C6: the command-specific ack handler is invoked at most once per
invocation; an invocation event `callHandler c` occurs only when the first
matching ack has status code 200 and `c` is its content; in the goroutine's
trace every handler invocation is preceded by the success report (the
match is reported first); and when the handler returns an error, the error
is reported as a secondary diagnostic while the run's outcome remains
`Acknowledged(success)`. -/
theorem ackHandler_contract (cmd : Command) (acks : List AckMessage) :
    countHandlerCalls (ackLoop cmd acks) ≤ 1
    ∧ (∀ c, AckEvent.callHandler c ∈ ackLoop cmd acks →
        ∃ ack, findMatch cmd.Message.header.messageID acks = some ack
          ∧ ack.StatusCode = 200 ∧ ack.Content = c)
    ∧ (∀ l1 l2 c, ackLoop cmd acks = l1 ++ AckEvent.callHandler c :: l2 →
        AckEvent.reportSuccess ∈ l1)
    ∧ (∀ ack err, findMatch cmd.Message.header.messageID acks = some ack →
        ack.StatusCode = 200 → cmd.HandleAck ack.Content = some err →
        AckEvent.reportHandlerError err ∈ ackLoop cmd acks
          ∧ classifyMatch ack = Outcome.ackSuccess ack.Message ack.Content
          ∧ ∀ env : MainEnv, cmd.IsAckExpected = true →
              env.cenv.connectErr = none → env.marshalOk = true →
              env.publishWait = PublishWait.ok → env.interruptBeforeAck = false →
              env.acks = acks →
              (runMain cmd env).outcome
                = some (Outcome.ackSuccess ack.Message ack.Content)) := by
  refine ⟨countHandlerCalls_ackLoop cmd acks,
    fun c h => callHandler_only_on_match cmd acks c h,
    fun l1 l2 c h => reportSuccess_before_callHandler cmd acks l1 l2 c h,
    ?_⟩
  intro ack err hF h200 hErr
  refine ⟨handlerError_in_trace cmd acks ack err hF h200 hErr,
    by simp [classifyMatch, h200], ?_⟩
  intro env hAck hConn hM hP hI hacks
  have := runMain_outcome_of_match cmd env ack hAck hConn hM hP hI (by rw [hacks]; exact hF)
  rw [this]
  simp [classifyMatch, h200]

/-- Witness for C6 at the concrete status command whose handler always
fails: the handler is called once, after the success report, the handler
error is reported, and the outcome stays `Acknowledged(success)`. -/
theorem ackHandler_contract_witness :
    countHandlerCalls (ackLoop wStatus [wAckOk]) ≤ 1
    ∧ AckEvent.reportHandlerError "unable to parse ACK JSON content"
        ∈ ackLoop wStatus [wAckOk]
    ∧ (runMain wStatus (wEnv [wAckOk])).outcome
        = some (Outcome.ackSuccess "done" "{}") :=
  ⟨(ackHandler_contract wStatus [wAckOk]).1,
    ((ackHandler_contract wStatus [wAckOk]).2.2.2 wAckOk
      "unable to parse ACK JSON content" (by decide) (by decide) rfl).1,
    ((ackHandler_contract wStatus [wAckOk]).2.2.2 wAckOk
      "unable to parse ACK JSON content" (by decide) (by decide) rfl).2.2
      (wEnv [wAckOk]) rfl rfl rfl rfl rfl rfl⟩

/-- C7 counterexample: a run that reached a connected session but fails to
marshal the message calls `util.ERROR.Fatalf` (indy-mqtt.go line 68) and
exits with status 1 without ever attempting the graceful disconnect — an
exit path after a connected session with no `Disconnect` call, refuting
"every error path". -/
theorem marshalFatal_skips_disconnect :
    (runMain wControl
        { cenv := { connectErr := none, subscribeConfirmsInTime := true },
          marshalOk := false, publishWait := PublishWait.ok,
          acks := [], interruptBeforeAck := false }).steps
      = [Step.fatalExit "Error marshaling message"]
    ∧ Step.disconnect DISCONNECT_WAIT_MS ∉
        (runMain wControl
          { cenv := { connectErr := none, subscribeConfirmsInTime := true },
            marshalOk := false, publishWait := PublishWait.ok,
            acks := [], interruptBeforeAck := false }).steps
    ∧ (runMain wControl
        { cenv := { connectErr := none, subscribeConfirmsInTime := true },
          marshalOk := false, publishWait := PublishWait.ok,
          acks := [], interruptBeforeAck := false }).exit = 1 := by
  decide

/-- C7 (amended): on every exit path of an invocation that reached a
connected session and marshalled its message — success, publish failure,
ack timeout, protocol failure, and interrupt during the publish or ack
wait — the process attempts the bounded graceful disconnect
(`Disconnect(250)`).  The only exception is the JSON-marshalling failure
path, which calls `Fatalf` and exits immediately without disconnecting
(marshalling cannot fail for the payloads this program constructs, but
the path exists in the source). -/
theorem disconnect_after_connected (cmd : Command) (env : MainEnv)
    (hConn : env.cenv.connectErr = none) (hM : env.marshalOk = true) :
    Step.disconnect DISCONNECT_WAIT_MS ∈ (runMain cmd env).steps := by
  have hresT := connectModel_result_none true env.cenv hConn
  have hresF := connectModel_result_none false env.cenv hConn
  cases hp : env.publishWait <;>
    cases hA : cmd.IsAckExpected <;>
      cases hib : env.interruptBeforeAck <;>
        cases hf : findMatch cmd.Message.header.messageID env.acks <;>
          simp [runMain, hresT, hresF, hM, hp, hA, hib, hf]

/-- Witness for the amended C7: the clean concrete run disconnects. -/
theorem disconnect_after_connected_witness :
    (wEnv []).cenv.connectErr = none
    ∧ Step.disconnect DISCONNECT_WAIT_MS ∈ (runMain wControl (wEnv [])).steps :=
  ⟨rfl, disconnect_after_connected wControl (wEnv []) rfl rfl⟩

/-- C8 counterexample: a connect failure is reported through
`util.ERROR.Fatalf`, which is Go's `log.Fatalf` and exits with status 1 —
a path observed in the source whose exit code is not 0, refuting "exits
with status code 0 on all paths observed in the source". -/
theorem connectFatal_exit_one :
    (runMain wControl
        { cenv := { connectErr := some "network unreachable",
                    subscribeConfirmsInTime := true },
          marshalOk := true, publishWait := PublishWait.ok,
          acks := [], interruptBeforeAck := false }).exit = 1
    ∧ (runMain wControl
        { cenv := { connectErr := some "network unreachable",
                    subscribeConfirmsInTime := true },
          marshalOk := true, publishWait := PublishWait.ok,
          acks := [], interruptBeforeAck := false }).exit ≠ 0
    ∧ fatalfExitCode = 1 := by
  decide

/-- C8 (amended): the process exits with status 0 on every path that
survives session setup and marshalling — success, publish failure, ack
timeout, protocol failure (status ≠ 200), and interrupt — and usage
errors also exit 0 (`PrintFatalUsage` calls `os.Exit(0)`); failures on
those paths are reported only via printed error text.  Fatal setup and
marshalling errors, however, go through `util.ERROR.Fatalf` (Go's
`log.Fatalf`) and exit with status 1. -/
theorem exit_zero_on_outcome_paths (cmd : Command) (env : MainEnv)
    (hConn : env.cenv.connectErr = none) (hM : env.marshalOk = true) :
    (runMain cmd env).exit = 0 ∧ printFatalUsageExitCode = 0 := by
  have hresT := connectModel_result_none true env.cenv hConn
  have hresF := connectModel_result_none false env.cenv hConn
  refine ⟨?_, rfl⟩
  cases hp : env.publishWait <;>
    cases hA : cmd.IsAckExpected <;>
      cases hib : env.interruptBeforeAck <;>
        cases hf : findMatch cmd.Message.header.messageID env.acks <;>
          simp [runMain, hresT, hresF, hM, hp, hA, hib, hf]

/-- Witness for the amended C8: a concrete run that times out waiting for
the ack still exits 0. -/
theorem exit_zero_on_outcome_paths_witness :
    (wEnv [wAckOther]).cenv.connectErr = none
    ∧ (runMain wControl (wEnv [wAckOther])).exit = 0 :=
  ⟨rfl, (exit_zero_on_outcome_paths wControl (wEnv [wAckOther]) rfl rfl).1⟩

/-- C9: the generated correlation (message) id is the client identifier
followed by the separator `-` and the random suffix; the suffix consists
of exactly 8 uppercase hexadecimal digits in the grouping `XXXX-XXXX`
(9 characters, a dash in the middle); the map from the eight uniform
draws in `[0,16)` to the suffix is injective, so the suffix space has
exactly `16^8 = 2^32` values — at least 32 bits of entropy; and the
generator is a total function (no failure modes). -/
theorem correlationID_spec (clientID timestamp : String) (content : CmdContent)
    (d : Fin 8 → Fin 16) :
    (NewMessage clientID content d timestamp).header.messageID
        = clientID ++ "-" ++ GenerateHexSuffix d
    ∧ (GenerateHexSuffix d).length = 9
    ∧ (∃ c0 c1 c2 c3 c4 c5 c6 c7,
        (GenerateHexSuffix d).data = [c0, c1, c2, c3, '-', c4, c5, c6, c7]
        ∧ isUpperHexDigit c0 = true ∧ isUpperHexDigit c1 = true
        ∧ isUpperHexDigit c2 = true ∧ isUpperHexDigit c3 = true
        ∧ isUpperHexDigit c4 = true ∧ isUpperHexDigit c5 = true
        ∧ isUpperHexDigit c6 = true ∧ isUpperHexDigit c7 = true)
    ∧ Function.Injective GenerateHexSuffix
    ∧ Fintype.card (Fin 8 → Fin 16) = 2 ^ 32 := by
  refine ⟨rfl, rfl, ?_, ?_, ?_⟩
  · exact ⟨_, _, _, _, _, _, _, _, rfl,
      hexUpperChar_isHex (d 0), hexUpperChar_isHex (d 1),
      hexUpperChar_isHex (d 2), hexUpperChar_isHex (d 3),
      hexUpperChar_isHex (d 4), hexUpperChar_isHex (d 5),
      hexUpperChar_isHex (d 6), hexUpperChar_isHex (d 7)⟩
  · intro d1 d2 h
    have hd : (GenerateHexSuffix d1).data = (GenerateHexSuffix d2).data := by
      rw [h]
    simp only [GenerateHexSuffix, List.cons.injEq, and_true, true_and] at hd
    obtain ⟨h0, h1, h2, h3, h4, h5, h6, h7⟩ := hd
    funext i
    fin_cases i
    · exact hexUpperChar_injective _ _ h0
    · exact hexUpperChar_injective _ _ h1
    · exact hexUpperChar_injective _ _ h2
    · exact hexUpperChar_injective _ _ h3
    · exact hexUpperChar_injective _ _ h4
    · exact hexUpperChar_injective _ _ h5
    · exact hexUpperChar_injective _ _ h6
    · exact hexUpperChar_injective _ _ h7
  · rw [Fintype.card_fun, Fintype.card_fin, Fintype.card_fin]
    norm_num

/-- Witness for C9 at concrete inputs: all-zero draws give the suffix
`0000-0000`, and the resulting message id is the client id, a dash, and
the suffix. -/
theorem correlationID_spec_witness :
    (NewMessage "host-indy-mqtt" CmdContent.empty wDraws "ts").header.messageID
      = "host-indy-mqtt" ++ "-" ++ GenerateHexSuffix wDraws
    ∧ GenerateHexSuffix wDraws = "0000-0000" :=
  ⟨(correlationID_spec "host-indy-mqtt" "ts" CmdContent.empty wDraws).1,
    by decide⟩

/-- C10: for every host, the reset command publishes to the same topic as
the restart command, `indy-switch/{host}/restart`, distinguished only by
the `reset` content field (`false` for restart, `true` for reset); both
are constructed with `ack_expected = false` and QoS 2. -/
theorem restart_reset_topics (clientID host timestamp : String)
    (d : Fin 8 → Fin 16) :
    ∃ restartCmd resetCmd : Command,
      NewRestartCommand clientID host [] d timestamp = Except.ok restartCmd
      ∧ NewResetCommand clientID host [] d timestamp = Except.ok resetCmd
      ∧ resetCmd.Topic = restartCmd.Topic
      ∧ restartCmd.Topic = "indy-switch/" ++ host ++ "/restart"
      ∧ restartCmd.Message.content = CmdContent.restart false
      ∧ resetCmd.Message.content = CmdContent.restart true
      ∧ restartCmd.IsAckExpected = false
      ∧ resetCmd.IsAckExpected = false
      ∧ restartCmd.QOS = 2
      ∧ resetCmd.QOS = 2 := by
  refine ⟨_, _, rfl, rfl, rfl, rfl, rfl, rfl, rfl, rfl, rfl, rfl⟩

/-- Witness for C10 at a concrete client id, host and draw. -/
theorem restart_reset_topics_witness :
    ∃ restartCmd resetCmd : Command,
      NewRestartCommand "cid" "esp-vorona" [] wDraws "ts" = Except.ok restartCmd
      ∧ NewResetCommand "cid" "esp-vorona" [] wDraws "ts" = Except.ok resetCmd
      ∧ resetCmd.Topic = restartCmd.Topic
      ∧ restartCmd.Topic = "indy-switch/" ++ "esp-vorona" ++ "/restart"
      ∧ restartCmd.Message.content = CmdContent.restart false
      ∧ resetCmd.Message.content = CmdContent.restart true
      ∧ restartCmd.IsAckExpected = false
      ∧ resetCmd.IsAckExpected = false
      ∧ restartCmd.QOS = 2
      ∧ resetCmd.QOS = 2 :=
  restart_reset_topics "cid" "esp-vorona" "ts" wDraws

end IndyMqtt
